import Mathlib

/-!
Verification of the project bootstrap script (`src/bootstrap.mjs`).

The script is a linear pipeline of ten stages. Each stage emits a sequence of
observable events: status-line prints, external-process invocations (`zx`'s
awaited template calls) and filesystem writes. We embed each stage as the
list of events it emits, in source order, and give two semantics:

* an executor `execTrace` parameterised by a success oracle, which runs the
  events strictly in sequence and stops at the first failing event (modelling
  "first error aborts all remaining stages"); and
* a filesystem interpretation `applyEvents` computing the resulting directory
  contents (file paths and contents, executable bits, registered run-scripts)
  of the events that did execute.
-/

namespace Bootstrap

/-- A JSON-like structured value, as passed to `fs.writeJSONSync`. -/
inductive JVal where
  | str (s : String)
  | bool (b : Bool)
  | arr (xs : List JVal)
  | obj (fields : List (String × JVal))

/-- Content of a written file: raw text (from `fs.writeFileSync`) or a
structured JSON value (from `fs.writeJSONSync`). -/
inductive Content where
  | text (s : String)
  | json (v : JVal)

/-- One observable step of the script: a console print, an awaited external
process invocation, or a synchronous filesystem call. -/
inductive Event where
  | print (msg : String)
  | proc (cmd : String) (args : List String)
  | mkdir (path : String)
  | cd (path : String)
  | writeFile (path : String) (content : String)
  | writeJSON (path : String) (value : JVal)
  | ensureFile (path : String)

/-- Modelled from the spec: `./utils/env.mjs` is not under `src/`; the spec
states "No environment variables are consulted", so the target project folder
name is a fixed constant, independent of arguments and environment. -/
def PROJECT_FOLDER : String := "project"

/-- Modelled from the spec: `./utils/steps.mjs` is not under `src/`; the spec
states the tool "prints a human-readable status line before each stage", so
`printStep` is a console print of its message. -/
def printStep (msg : String) : Event := .print msg

/-- Stage 1, `prepare` (src/bootstrap.mjs lines 7-17): remove any pre-existing
target directory, recreate it, cd into it, `npm init -y`, `git init`, write
`.gitignore`. -/
def prepare : List Event :=
  [ printStep "Preparing ...",
    .proc "rm" ["-rf", "./" ++ PROJECT_FOLDER],
    .mkdir ("./" ++ PROJECT_FOLDER),
    .cd ("./" ++ PROJECT_FOLDER),
    .proc "npm" ["init", "-y"],
    .proc "git" ["init"],
    .writeFile ".gitignore" "node_modules" ]

/-- The hardcoded dev-dependency list (src/bootstrap.mjs lines 21-43),
verbatim, in source order. -/
def devDependencies : List String :=
  [ "@commitlint/cli",
    "@commitlint/config-conventional",
    "@semantic-release/changelog",
    "@semantic-release/git",
    "@types/jest",
    "cspell",
    "eslint-config-airbnb-base@latest",
    "eslint-config-prettier",
    "eslint-plugin-import@^2.25.2",
    "eslint-plugin-markdownlint",
    "eslint-plugin-prettier",
    "eslint@^8.2.0",
    "husky",
    "imagemin-lint-staged",
    "jest",
    "lint-staged",
    "markdownlint",
    "markdownlint-cli",
    "nodemon",
    "prettier",
    "semantic-release" ]

/-- Stage 2, `installDependencies` (lines 19-45): one `npm install --save-dev`
invocation with the fixed package list. -/
def installDependencies : List Event :=
  [ printStep "Installing dependencies...",
    .proc "npm" (["install", "--save-dev"] ++ devDependencies) ]

/-- Stage 3, `prepareHusky` (lines 47-50). -/
def prepareHusky : List Event :=
  [ printStep "Setting up semantic-release...",
    .proc "npx" ["--no-install", "husky", "install"] ]

/-- The cspell configuration object (lines 55-69). -/
def cspellConfig : JVal :=
  .obj
    [ ("ignorePaths", .arr [.str "node_modules"]),
      ("words",
        .arr
          [ .str "commitlint",
            .str "imagemin",
            .str "markdownlint",
            .str "parens",
            .str "postcss",
            .str "stylelint" ]) ]

/-- Stage 4, `prepareSpellChecker` (lines 52-70). -/
def prepareSpellChecker : List Event :=
  [ printStep "Setting up cSpell ...",
    .ensureFile "./cspell.json",
    .writeJSON "./cspell.json" cspellConfig ]

/-- The commitlint configuration text (lines 77-82), verbatim. -/
def commitlintConfigText : String :=
  "module.exports = \x7b\n  extends: [\x27@commitlint/config-conventional\x27],\n  rules: \x7b\n    \x27references-empty\x27: [2, \x27never\x27],\n  \x7d,\n\x7d;"

/-- The commit-msg hook script text (lines 87-91), after template-literal
escape processing, verbatim. -/
def commitMsgHookText : String :=
  "#!/bin/sh\n. \"$(dirname \"$0\")/_/husky.sh\"\n\nnpx --no -- commitlint --edit \"$\x7b1\x7d\"\nnpx --no -- cspell --no-summary --no-progress \"$\x7b1\x7d\""

/-- Stage 5, `prepareCommitLint` (lines 72-94). -/
def prepareCommitLint : List Event :=
  [ printStep "Setting up commitlint...",
    .ensureFile "commitlint.config.js",
    .writeFile "commitlint.config.js" commitlintConfigText,
    .ensureFile "./.husky/commit-msg",
    .writeFile "./.husky/commit-msg" commitMsgHookText,
    .proc "chmod" ["a+x", "./.husky/commit-msg"] ]

/-- The eslint configuration text (lines 101-120), verbatim. -/
def eslintrcText : String :=
  "module.exports = \x7b\n  env: \x7b\n    commonjs: true,\n    es2021: true,\n    jest: true,\n    node: true,\n  \x7d,\n  extends: [\"airbnb-base\"],\n  overrides: [\n    \x7b\n      files: [\"*.md\"],\n      parser: \"eslint-plugin-markdownlint/parser\",\n      extends: [\"plugin:markdownlint/recommended\"]\n    \x7d\n  ],\n  parserOptions: \x7b\n    ecmaVersion: \"latest\",\n  \x7d,\n  rules: \x7b\x7d,\n\x7d;"

/-- The eslint ignore-list text (lines 125-129), verbatim. -/
def eslintignoreText : String :=
  "coverage/*\nnode_modules/*\nbuild/*\n.eslintrc.js\n"

/-- Stage 6, `prepareLinter` (lines 96-131). -/
def prepareLinter : List Event :=
  [ printStep "Setting up eslint + airbnb ...",
    .ensureFile "./.eslintrc.js",
    .writeFile "./.eslintrc.js" eslintrcText,
    .ensureFile "./.eslintignore",
    .writeFile "./.eslintignore" eslintignoreText ]

/-- The prettier options text (lines 138-146), verbatim, including the
trailing newline and two spaces of the template literal. -/
def prettierrcText : String :=
  "\x7b\n  \"arrowParens\": \"always\",\n  \"printWidth\": 80,\n  \"proseWrap\": \"preserve\",\n  \"semi\": true,\n  \"singleQuote\": true,\n  \"trailingComma\": \"es5\"\n\x7d\n  "

/-- Stage 7, `prepareFormatter` (lines 133-150). -/
def prepareFormatter : List Event :=
  [ printStep "Setting up prettier...",
    .ensureFile "./.prettierrc",
    .writeFile "./.prettierrc" prettierrcText,
    .ensureFile "./.prettierignore",
    .writeFile "./.prettierignore" "node_modules/**" ]

/-- The lint-staged glob-to-invocation mapping (lines 157-163), verbatim. -/
def lintstagedConfig : JVal :=
  .obj
    [ ("*", .str "cspell --no-summary --no-progress"),
      ("*.md", .str "markdownlint --fix --ignore CHANGELOG.md"),
      ("*.\x7bjs,jsx,ts,tsx,html,css\x7d",
        .arr [.str "prettier --write", .str "eslint --fix"]),
      ("*.\x7bpng,jpeg,jpg,gif,svg\x7d", .str "imagemin-lint-staged"),
      ("*.scss",
        .arr [.str "postcss --config path/to/your/config --replace", .str "stylelint"]) ]

/-- The pre-commit hook script text (lines 169-172), verbatim. -/
def preCommitHookText : String :=
  "#!/usr/bin/env sh\n. \"$(dirname \"$0\")/_/husky.sh\"\n\nnpx lint-staged"

/-- Stage 8, `prepareLintStaged` (lines 152-175). -/
def prepareLintStaged : List Event :=
  [ printStep "Setting up prettier...",
    .ensureFile "./.lintstagedrc",
    .writeJSON "./.lintstagedrc" lintstagedConfig,
    .ensureFile "./.husky/pre-commit",
    .writeFile "./.husky/pre-commit" preCommitHookText,
    .proc "chmod" ["a+x", "./.husky/pre-commit"] ]

/-- The semantic-release configuration object (lines 181-197), verbatim;
the `@semantic-release/npm` entry is commented out in the source and hence
absent. -/
def releasercConfig : JVal :=
  .obj
    [ ("ci", .bool false),
      ("branches", .arr [.str "master"]),
      ("plugins",
        .arr
          [ .str "@semantic-release/commit-analyzer",
            .str "@semantic-release/release-notes-generator",
            .str "@semantic-release/changelog",
            .arr
              [ .str "@semantic-release/git",
                .obj [("message", .str "chore(release): $\x7bnextRelease.version\x7d")] ] ]),
      ("repositoryUrl", .str "REPLACE ME") ]

/-- Stage 9, `prepareSemanticRelease` (lines 177-202). -/
def prepareSemanticRelease : List Event :=
  [ printStep "Setting up semantic release ...",
    .writeJSON ".releaserc.json" releasercConfig,
    .proc "npm" ["set-script", "release", "semantic-release"],
    .proc "npm" ["set-script", "release:dry", "semantic-release --dry-run"] ]

/-- The jest configuration text (lines 209-220), verbatim. -/
def jestConfigText : String :=
  "/*\n  * For a detailed explanation regarding each configuration property, visit:\n  * https://jestjs.io/docs/configuration\n*/\n\nmodule.exports = \x7b\n  clearMocks: true,\n  collectCoverage: true,\n  coverageDirectory: \x27coverage\x27,\n  coverageProvider: \x27v8\x27,\n\x7d;\n"

/-- Stage 10, `prepareTest` (lines 204-223). -/
def prepareTest : List Event :=
  [ printStep "Setting up semantic jest ...",
    .ensureFile "./jest.config.js",
    .writeFile "./jest.config.js" jestConfigText,
    .proc "npm" ["set-script", "test", "jest"] ]

/-- The full pipeline (lines 225-236): the ten stages concatenated in the
source's top-level await order. -/
def bootstrapTrace : List Event :=
  prepare ++ installDependencies ++ prepareHusky ++ prepareSpellChecker ++
  prepareCommitLint ++ prepareLinter ++ prepareFormatter ++ prepareLintStaged ++
  prepareSemanticRelease ++ prepareTest

/-- The script as a function of command-line arguments and environment:
`bootstrap.mjs` reads neither `process.argv` nor `process.env` (and, modelled
from the spec, neither does the missing `./utils/env.mjs`), so the emitted
event trace ignores both parameters. -/
def bootstrapTraceOf (_argv : List String) (_env : String → Option String) :
    List Event :=
  bootstrapTrace

/-! ## Executor semantics -/

/-- Outcome of a run: full completion (exit code zero), or the first failure,
identified by its position in the trace and the failing event, propagated
unchanged (exit code non-zero). -/
inductive RunResult where
  | success
  | failure (i : Nat) (e : Event)

/-- Run the events strictly in sequence, starting at position `i`. The oracle
`ok` says whether the event at a given position succeeds (an external process
exiting zero, a filesystem call not raising). Returns the list of events that
completed, in order, and the outcome; at the first failing event no further
event is attempted. -/
def execTrace (ok : Nat → Bool) : Nat → List Event → List Event × RunResult
  | _, [] => ([], .success)
  | i, e :: es =>
    if ok i then
      let r := execTrace ok (i + 1) es
      (e :: r.1, r.2)
    else
      ([], .failure i e)

/-! ## Filesystem interpretation -/

/-- Normalise a relative path: the source writes some paths with a leading
`./` and the same files without it; on disk they coincide. -/
def normPath (p : String) : String :=
  match p.toList with
  | '.' :: '/' :: rest => String.mk rest
  | _ => p

/-- State of the generated project directory: files (path, content) in
creation order, paths given executable bits by `chmod a+x`, and run-scripts
registered through `npm set-script`. -/
structure FS where
  files : List (String × Content)
  execs : List String
  scripts : List (String × String)

def FS.empty : FS := ⟨[], [], []⟩

/-- Overwrite the content at a key, keeping its position; append a new key at
the end. Matches the write-in-place / create-at-end behaviour of a directory
listing in creation order. -/
def upsert : List (String × Content) → String → Content → List (String × Content)
  | [], k, v => [(k, v)]
  | (k', v') :: rest, k, v =>
    if k' = k then (k, v) :: rest else (k', v') :: upsert rest k v

/-- Effect of one event on the directory state. `rm -rf` of the project
folder discards all modelled state (every modelled path lives inside it);
`chmod a+x p` records the executable bit; `npm set-script` records the
run-script; file events write through `upsert`; `ensureFileSync` creates an
empty file only when the path is absent; prints, `mkdir`, `cd` and the
remaining process invocations do not change the modelled state. -/
def applyEvent (s : FS) : Event → FS
  | .print _ => s
  | .mkdir _ => s
  | .cd _ => s
  | .proc c args =>
    if c = "rm" then FS.empty
    else if c = "chmod" then
      match args with
      | [_, p] => { s with execs := s.execs ++ [normPath p] }
      | _ => s
    else if c = "npm" then
      match args with
      | ["set-script", n, v] => { s with scripts := s.scripts ++ [(n, v)] }
      | _ => s
    else s
  | .writeFile p c => { s with files := upsert s.files (normPath p) (.text c) }
  | .writeJSON p v => { s with files := upsert s.files (normPath p) (.json v) }
  | .ensureFile p =>
    if (s.files.lookup (normPath p)).isSome then s
    else { s with files := s.files ++ [(normPath p, .text "")] }

/-- Fold the filesystem interpretation over a list of events. -/
def applyEvents (s : FS) (es : List Event) : FS :=
  es.foldl applyEvent s

/-- The path written by a filesystem-write event, if any. -/
def fileWritePath : Event → Option String
  | .writeFile p _ => some (normPath p)
  | .writeJSON p _ => some (normPath p)
  | .ensureFile p => some (normPath p)
  | _ => none

/-- The distinct paths the script itself writes (via `fs` calls) into the new
project directory, in first-write order. -/
def bootstrapWrittenPaths : List String :=
  (bootstrapTrace.filterMap fileWritePath).dedup

/-- Lookup of a key in a JSON object value. -/
def jlookup (v : JVal) (k : String) : Option JVal :=
  match v with
  | .obj fields => fields.lookup k
  | _ => none

/-- Whether an event is an external-process invocation. -/
def isProc : Event → Bool
  | .proc _ _ => true
  | _ => false

/-- Whether an event is a `chmod` invocation. -/
def isChmod : Event → Bool
  | .proc c _ => c == "chmod"
  | _ => false

/-- Whether an event is an `npm set-script` invocation. -/
def isSetScript : Event → Bool
  | .proc "npm" ("set-script" :: _) => true
  | _ => false

/-- The package name of a dev-dependency entry: everything before a version
separator `@` (the leading `@` of a scoped package is not a separator). -/
def pkgBase (s : String) : String :=
  match s.toList with
  | [] => ""
  | c :: rest => String.mk (c :: rest.takeWhile (fun a => a ≠ '@'))

/-- Whether a dev-dependency entry carries an explicit version pin. -/
def isPinnedEntry (d : String) : Bool :=
  pkgBase d != d

/-- A run on which every event of the pipeline succeeds. -/
def successfulRun (ok : Nat → Bool) : Prop :=
  ∀ j, j < bootstrapTrace.length → ok j = true

/-! ## Executor lemmas -/

/-- Whatever the oracle, the executed events form an initial segment of the
trace: events run strictly in the written order, none is skipped or
reordered, and nothing runs past the first failure. -/
theorem execTrace_initial_segment (ok : Nat → Bool) :
    ∀ (es : List Event) (i : Nat), (execTrace ok i es).1 <+: es := by
  intro es
  induction es with
  | nil => exact fun i => ⟨[], rfl⟩
  | cons e es ih =>
    intro i
    by_cases h : ok i
    · obtain ⟨t, ht⟩ := ih (i + 1)
      exact ⟨t, by simp [execTrace, h, ht]⟩
    · exact ⟨e :: es, by simp [execTrace, h]⟩

/-- If the events before position `k` succeed and the one at `k` fails, the
run executes exactly the first `k` events and stops with that failure,
propagated unchanged. -/
theorem execTrace_first_fail (ok : Nat → Bool) :
    ∀ (es : List Event) (k i : Nat) (hk : k < es.length),
      (∀ j, j < k → ok (i + j) = true) → ok (i + k) = false →
      execTrace ok i es = (es.take k, RunResult.failure (i + k) (es.get ⟨k, hk⟩)) := by
  intro es
  induction es with
  | nil =>
    intro k i hk
    exact absurd hk (by simp)
  | cons e es ih =>
    intro k i hk hbef hfail
    cases k with
    | zero =>
      have h0 : ok i = false := by simpa using hfail
      simp [execTrace, h0]
    | succ k =>
      have h0 : ok i = true := by simpa using hbef 0 (Nat.succ_pos k)
      have hk' : k < es.length := Nat.lt_of_succ_lt_succ hk
      have hbef' : ∀ j, j < k → ok (i + 1 + j) = true := by
        intro j hj
        have hb := hbef (j + 1) (Nat.succ_lt_succ hj)
        have harith : i + (j + 1) = i + 1 + j := by omega
        rwa [harith] at hb
      have hfail' : ok (i + 1 + k) = false := by
        have harith : i + (k + 1) = i + 1 + k := by omega
        rwa [harith] at hfail
      have hrec := ih k (i + 1) hk' hbef' hfail'
      have harith : i + 1 + k = i + (k + 1) := by omega
      simp [execTrace, h0, hrec, harith]

/-- On a run with no failure, every event executes and the run succeeds. -/
theorem execTrace_all_ok (ok : Nat → Bool) :
    ∀ (es : List Event) (i : Nat), (∀ j, j < es.length → ok (i + j) = true) →
      execTrace ok i es = (es, RunResult.success) := by
  intro es
  induction es with
  | nil => exact fun i _ => rfl
  | cons e es ih =>
    intro i h
    have h0 : ok i = true := by simpa using h 0 (Nat.succ_pos _)
    have h' : ∀ j, j < es.length → ok (i + 1 + j) = true := by
      intro j hj
      have hb := h (j + 1) (Nat.succ_lt_succ hj)
      have harith : i + (j + 1) = i + 1 + j := by omega
      rwa [harith] at hb
    simp [execTrace, h0, ih (i + 1) h']

/-- On a successful run the whole pipeline executes. -/
theorem exec_of_successful (ok : Nat → Bool) (h : successfulRun ok) :
    execTrace ok 0 bootstrapTrace = (bootstrapTrace, RunResult.success) :=
  execTrace_all_ok ok bootstrapTrace 0 (by intro j hj; simpa using h j hj)

/-! ## Claims -/

/-- C1: the ten stages execute strictly in the fixed source order — the full
event trace is the concatenation of the ten stage traces in that order, and
for every run (any success oracle) the executed events form an initial
segment of that concatenation, so events of a later stage never precede or
interleave those of an earlier one, and each stage's invocations and writes
are completed before the next stage's begin. -/
theorem C1_stages_fixed_order :
    bootstrapTrace =
      prepare ++ installDependencies ++ prepareHusky ++ prepareSpellChecker ++
        prepareCommitLint ++ prepareLinter ++ prepareFormatter ++
        prepareLintStaged ++ prepareSemanticRelease ++ prepareTest ∧
    ∀ ok : Nat → Bool, (execTrace ok 0 bootstrapTrace).1 <+: bootstrapTrace :=
  ⟨rfl, fun ok => execTrace_initial_segment ok bootstrapTrace 0⟩

/-- C2: the first failing event aborts the run — the outcome is that failure,
propagated unchanged (non-zero exit), exactly the events before it executed
(so no cleanup of already-created artifacts happens), and if the failure lies
within the prepare or dependency-install stage, the executed events are an
initial segment of those two stages alone: no later stage executes or writes
anything. -/
theorem C2_first_error_aborts (ok : Nat → Bool) (k : Nat)
    (hk : k < bootstrapTrace.length)
    (hbef : ∀ j, j < k → ok j = true) (hfail : ok k = false) :
    execTrace ok 0 bootstrapTrace =
      (bootstrapTrace.take k, RunResult.failure k (bootstrapTrace.get ⟨k, hk⟩)) ∧
    (execTrace ok 0 bootstrapTrace).2 ≠ RunResult.success ∧
    (k < (prepare ++ installDependencies).length →
      (execTrace ok 0 bootstrapTrace).1 <+: prepare ++ installDependencies) := by
  have hmain := execTrace_first_fail ok bootstrapTrace k 0 hk
    (by intro j hj; simpa using hbef j hj) (by simpa using hfail)
  rw [Nat.zero_add] at hmain
  refine ⟨hmain, ?_, ?_⟩
  · rw [hmain]
    exact fun h => RunResult.noConfusion h
  · intro hk9
    have hlen : (prepare ++ installDependencies).length = 9 := rfl
    rw [hlen] at hk9
    have h9 : bootstrapTrace.take 9 = prepare ++ installDependencies := rfl
    have htake : bootstrapTrace.take k = (prepare ++ installDependencies).take k := by
      rw [← h9, List.take_take, Nat.min_eq_left (Nat.le_of_lt hk9)]
    rw [hmain]
    show bootstrapTrace.take k <+: prepare ++ installDependencies
    rw [htake]
    exact ⟨(prepare ++ installDependencies).drop k, List.take_append_drop k _⟩

/-- C2 witness: with an oracle that fails exactly at position 8 (the
`npm install` invocation of the dependency-install stage), the run aborts
there and no event of any later stage executes. -/
theorem C2_first_error_aborts_witness :
    (execTrace (fun j => decide (j < 8)) 0 bootstrapTrace).1 <+:
      prepare ++ installDependencies :=
  (C2_first_error_aborts (fun j => decide (j < 8)) 8 (by decide)
      (fun j hj => decide_eq_true hj) (by decide)).2.2 (by decide)

/-- C3 counterexample: the script writes twelve distinct paths into the new
project directory, not ten as claimed. -/
theorem C3_counterexample :
    bootstrapWrittenPaths.length = 12 ∧ bootstrapWrittenPaths.length ≠ 10 := by
  have h12 : bootstrapWrittenPaths.length = 12 := rfl
  exact ⟨h12, by rw [h12]; decide⟩

set_option maxHeartbeats 2000000 in
/-- C3 (amended): for every fresh successful run, the set of files the script
writes into the new project directory consists of exactly twelve files — the
ten configuration files plus the two hook scripts — each with the exact
literal contents given per stage. -/
theorem C3_twelve_artifacts (ok : Nat → Bool) (h : successfulRun ok) :
    (execTrace ok 0 bootstrapTrace).1 = bootstrapTrace ∧
    bootstrapWrittenPaths =
      [ ".gitignore", "cspell.json", "commitlint.config.js",
        ".husky/commit-msg", ".eslintrc.js", ".eslintignore", ".prettierrc",
        ".prettierignore", ".lintstagedrc", ".husky/pre-commit",
        ".releaserc.json", "jest.config.js" ] ∧
    (applyEvents FS.empty (execTrace ok 0 bootstrapTrace).1).files =
      [ (".gitignore", .text "node_modules"),
        ("cspell.json", .json cspellConfig),
        ("commitlint.config.js", .text commitlintConfigText),
        (".husky/commit-msg", .text commitMsgHookText),
        (".eslintrc.js", .text eslintrcText),
        (".eslintignore", .text eslintignoreText),
        (".prettierrc", .text prettierrcText),
        (".prettierignore", .text "node_modules/**"),
        (".lintstagedrc", .json lintstagedConfig),
        (".husky/pre-commit", .text preCommitHookText),
        (".releaserc.json", .json releasercConfig),
        ("jest.config.js", .text jestConfigText) ] := by
  have hexec := exec_of_successful ok h
  refine ⟨by rw [hexec], rfl, ?_⟩
  rw [hexec]
  rfl

/-- C3 witness: on the all-successful oracle the whole pipeline executes. -/
theorem C3_twelve_artifacts_witness :
    (execTrace (fun _ => true) 0 bootstrapTrace).1 = bootstrapTrace :=
  (C3_twelve_artifacts (fun _ => true) (fun _ _ => rfl)).1

/-- C4: the dependency-install stage makes a single package-manager
invocation, `npm install --save-dev` applied to exactly the hardcoded
21-entry list, with precisely the three version-pinned entries pinned and
all other entries unpinned. -/
theorem C4_install_package_list :
    devDependencies =
      [ "@commitlint/cli", "@commitlint/config-conventional",
        "@semantic-release/changelog", "@semantic-release/git", "@types/jest",
        "cspell", "eslint-config-airbnb-base@latest", "eslint-config-prettier",
        "eslint-plugin-import@^2.25.2", "eslint-plugin-markdownlint",
        "eslint-plugin-prettier", "eslint@^8.2.0", "husky",
        "imagemin-lint-staged", "jest", "lint-staged", "markdownlint",
        "markdownlint-cli", "nodemon", "prettier", "semantic-release" ] ∧
    installDependencies.filter isProc =
      [Event.proc "npm" (["install", "--save-dev"] ++ devDependencies)] ∧
    devDependencies.filter isPinnedEntry =
      [ "eslint-config-airbnb-base@latest", "eslint-plugin-import@^2.25.2",
        "eslint@^8.2.0" ] :=
  ⟨rfl, rfl, by decide⟩

/-- C5: after a successful run both hook files carry the executable bit, set
by a `chmod a+x` issued once per hook file inside its stage (and exactly
twice in the whole pipeline). -/
theorem C5_hooks_executable (ok : Nat → Bool) (h : successfulRun ok) :
    (applyEvents FS.empty (execTrace ok 0 bootstrapTrace).1).execs =
      [".husky/commit-msg", ".husky/pre-commit"] ∧
    prepareCommitLint.filter isChmod =
      [Event.proc "chmod" ["a+x", "./.husky/commit-msg"]] ∧
    prepareLintStaged.filter isChmod =
      [Event.proc "chmod" ["a+x", "./.husky/pre-commit"]] ∧
    bootstrapTrace.countP isChmod = 2 := by
  have hexec := exec_of_successful ok h
  rw [hexec]
  exact ⟨rfl, rfl, rfl, rfl⟩

/-- C5 witness: instantiation at the all-successful oracle. -/
theorem C5_hooks_executable_witness :
    (applyEvents FS.empty (execTrace (fun _ => true) 0 bootstrapTrace).1).execs =
      [".husky/commit-msg", ".husky/pre-commit"] :=
  (C5_hooks_executable (fun _ => true) (fun _ _ => rfl)).1

/-- C6: the written release configuration lists its plugins in the exact
fixed order (commit-analyzer, release-notes-generator, changelog, git) with
the git step carrying the literal commit-message template, and the stage
registers exactly the two run-scripts `release` and `release:dry`. -/
theorem C6_release_config (ok : Nat → Bool) (h : successfulRun ok) :
    (applyEvents FS.empty (execTrace ok 0 bootstrapTrace).1).files.lookup
        ".releaserc.json" = some (Content.json releasercConfig) ∧
    jlookup releasercConfig "plugins" =
      some (JVal.arr
        [ JVal.str "@semantic-release/commit-analyzer",
          JVal.str "@semantic-release/release-notes-generator",
          JVal.str "@semantic-release/changelog",
          JVal.arr
            [ JVal.str "@semantic-release/git",
              JVal.obj
                [("message", JVal.str "chore(release): $\x7bnextRelease.version\x7d")] ] ]) ∧
    prepareSemanticRelease.filter isSetScript =
      [ Event.proc "npm" ["set-script", "release", "semantic-release"],
        Event.proc "npm" ["set-script", "release:dry", "semantic-release --dry-run"] ] ∧
    (applyEvents FS.empty (execTrace ok 0 bootstrapTrace).1).scripts.lookup
        "release" = some "semantic-release" ∧
    (applyEvents FS.empty (execTrace ok 0 bootstrapTrace).1).scripts.lookup
        "release:dry" = some "semantic-release --dry-run" := by
  have hexec := exec_of_successful ok h
  rw [hexec]
  exact ⟨rfl, rfl, rfl, rfl, rfl⟩

/-- C6 witness: instantiation at the all-successful oracle. -/
theorem C6_release_config_witness :
    (applyEvents FS.empty (execTrace (fun _ => true) 0 bootstrapTrace).1).files.lookup
      ".releaserc.json" = some (Content.json releasercConfig) :=
  (C6_release_config (fun _ => true) (fun _ _ => rfl)).1

/-- The pipeline begins by printing the status line and running
`rm -rf` on the target directory, which discards every piece of modelled
state, so the result never depends on the directory state a run starts
from. -/
theorem applyEvents_fresh (t : FS) :
    applyEvents t bootstrapTrace = applyEvents FS.empty bootstrapTrace := rfl

/-- C7: the prepare stage starts by removing any pre-existing target
directory and recreating it, so from any prior directory state the run
produces exactly the fresh-run result, and a second run over the first run's
output reproduces it — idempotent as an operation and reading no state from
a previous run. -/
theorem C7_rerun_idempotent (s : FS) :
    applyEvents (applyEvents s bootstrapTrace) bootstrapTrace =
      applyEvents s bootstrapTrace ∧
    applyEvents s bootstrapTrace = applyEvents FS.empty bootstrapTrace :=
  ⟨(applyEvents_fresh (applyEvents s bootstrapTrace)).trans
      (applyEvents_fresh s).symm,
    applyEvents_fresh s⟩

/-- C8: the script reads neither command-line arguments nor environment
variables (the target folder name is a spec-modelled constant), so the
emitted behaviour — the whole event trace of process invocations and file
writes — is identical across any two choices of arguments and environment. -/
theorem C8_no_args_no_env (argv1 argv2 : List String)
    (env1 env2 : String → Option String) :
    bootstrapTraceOf argv1 env1 = bootstrapTraceOf argv2 env2 ∧
    bootstrapTraceOf argv1 env1 = bootstrapTrace :=
  ⟨rfl, rfl⟩

/-- C9: the staged-file lint/format mapping written at stage 8 maps the key
`*.md` to the markdownlint fix invocation. -/
theorem C9_lintstaged_md (ok : Nat → Bool) (h : successfulRun ok) :
    (applyEvents FS.empty (execTrace ok 0 bootstrapTrace).1).files.lookup
        ".lintstagedrc" = some (Content.json lintstagedConfig) ∧
    jlookup lintstagedConfig "*.md" =
      some (JVal.str "markdownlint --fix --ignore CHANGELOG.md") := by
  have hexec := exec_of_successful ok h
  rw [hexec]
  exact ⟨rfl, rfl⟩

/-- C9 witness: instantiation at the all-successful oracle. -/
theorem C9_lintstaged_md_witness :
    (applyEvents FS.empty (execTrace (fun _ => true) 0 bootstrapTrace).1).files.lookup
      ".lintstagedrc" = some (Content.json lintstagedConfig) :=
  (C9_lintstaged_md (fun _ => true) (fun _ _ => rfl)).1

/-- C10: the mapping's `*.scss` entry invokes postcss with the literal
unresolved placeholder path and invokes stylelint, while no entry of the
installed dependency list names the package `postcss` or `stylelint`: the
generated configuration references tools the bootstrap never installs. -/
theorem C10_scss_tools_uninstalled :
    jlookup lintstagedConfig "*.scss" =
      some (JVal.arr
        [ JVal.str "postcss --config path/to/your/config --replace",
          JVal.str "stylelint" ]) ∧
    devDependencies.all
      (fun d => pkgBase d != "postcss" && pkgBase d != "stylelint") = true :=
  ⟨rfl, by decide⟩

end Bootstrap
